import Mathlib

/-!
Verification of the `ChromeCrawler` orchestrator
(`w3af/core/controllers/chrome/crawler/main.py`).

The Python class is shallowly embedded as pure Lean functions.  External
collaborators (the chrome pool, the instrumented chrome handle, the crawl
strategy, the worker pool) are modelled by behaviour records that state, for
each call the crawler makes, whether the call returns normally or raises and
which exception class it raises.  Each embedded method returns the ordered
trace of observable events (pool acquire/free/remove and the chrome/strategy
calls it performed) together with the exception, if any, that propagates out
of it — mirroring the try/except structure of the source.
-/

deriving instance DecidableEq for Except

namespace ChromeCrawler

/-- Exception classes distinguished by the crawler's except-clauses:
`ChromeInterfaceException`, `ChromeInterfaceTimeout`, `ChromeCrawlerException`,
`ChromePoolException`, Python's `AttributeError` (attribute access on `None`),
and any other unanticipated exception. -/
inductive Exn
  | chromeInterface
  | chromeTimeout
  | chromeCrawler
  | chromePool
  | attributeError
  | other
deriving DecidableEq

/-- The pair `(ChromeInterfaceException, ChromeInterfaceTimeout)` caught by the
load, wait, stop and cleanup except-clauses. -/
def Exn.isChromeInterfaceOrTimeout : Exn → Bool
  | Exn.chromeInterface => true
  | Exn.chromeTimeout => true
  | _ => false

/-- The triple `(ChromeInterfaceException, ChromeInterfaceTimeout,
ChromeCrawlerException)` caught around `crawl_strategy.crawl()`. -/
def Exn.isSoftStrategyExn : Exn → Bool
  | Exn.chromeInterface => true
  | Exn.chromeTimeout => true
  | Exn.chromeCrawler => true
  | _ => false

/-- Observable events of one crawl session: calls on the chrome pool
(`poolGet` is a successful `self._chrome_pool.get(...)`, `poolFree` is
`self._chrome_pool.free(chrome)`, `poolRemove` is
`self._chrome_pool.remove(chrome, reason)`) and the calls made on the leased
chrome handle and the strategy. -/
inductive Event
  | poolGet
  | poolFree
  | poolRemove (reason : String)
  | loadUrl
  | waitForLoad
  | stop
  | strategyCrawl
  | loadAboutBlank
deriving DecidableEq

/-- Number of successful pool acquisitions in a trace. -/
def countAcquire : List Event → Nat
  | [] => 0
  | Event.poolGet :: rest => countAcquire rest + 1
  | _ :: rest => countAcquire rest

/-- Number of `free` calls in a trace. -/
def countFree : List Event → Nat
  | [] => 0
  | Event.poolFree :: rest => countFree rest + 1
  | _ :: rest => countFree rest

/-- Number of `remove` (evict) calls in a trace. -/
def countRemove : List Event → Nat
  | [] => 0
  | Event.poolRemove _ :: rest => countRemove rest + 1
  | _ :: rest => countRemove rest

/-- Whether the strategy's `crawl()` was invoked in a trace. -/
def hasStrategyCrawl : List Event → Bool
  | [] => false
  | Event.strategyCrawl :: _ => true
  | _ :: rest => hasStrategyCrawl rest

/-- Whether `chrome.stop()` was invoked in a trace. -/
def hasStop : List Event → Bool
  | [] => false
  | Event.stop :: _ => true
  | _ :: rest => hasStop rest

/-- Whether the cleanup call `chrome.load_about_blank()` was invoked. -/
def hasLoadAboutBlank : List Event → Bool
  | [] => false
  | Event.loadAboutBlank :: _ => true
  | _ :: rest => hasLoadAboutBlank rest

/-- Whether `chrome.load_url(url)` was invoked in a trace. -/
def hasLoadUrl : List Event → Bool
  | [] => false
  | Event.loadUrl :: _ => true
  | _ :: rest => hasLoadUrl rest

/-- Behaviour of the leased chrome handle during one session: for each call
the crawler makes, either `none` (returns normally) or `some e` (raises `e`).
`wait_for_load` may also return a boolean when it does not raise. -/
structure ChromeBehavior where
  load_url : Option Exn
  wait_for_load : Except Exn Bool
  stop : Option Exn
  load_about_blank : Option Exn
deriving DecidableEq

/-- Environment of one crawl session: outcome of `self._chrome_pool.get(...)`
(`none` = a handle is returned, `some e` = the call raises `e`), the chrome
handle's behaviour, and the outcome of `crawl_strategy.crawl(chrome, url)`. -/
structure SessionEnv where
  pool_get : Option Exn
  chrome : ChromeBehavior
  strategy_crawl : Option Exn
deriving DecidableEq

/-- `ChromeCrawler._initial_page_load` (main.py lines 373-455): `load_url`,
`wait_for_load`, then `stop`, each with its own except-clause that removes the
chrome from the pool and re-raises on `ChromeInterfaceException` /
`ChromeInterfaceTimeout`; other exceptions propagate without a remove.  A
`wait_for_load` that returns `False` is only logged. -/
def _initial_page_load (b : ChromeBehavior) : List Event × Option Exn :=
  match b.load_url with
  | some e =>
    if e.isChromeInterfaceOrTimeout then
      ([Event.loadUrl, Event.poolRemove ("failed to load URL")], some e)
    else
      ([Event.loadUrl], some e)
  | none =>
    match b.wait_for_load with
    | Except.error e =>
      if e.isChromeInterfaceOrTimeout then
        ([Event.loadUrl, Event.waitForLoad, Event.poolRemove ("exception raised")], some e)
      else
        ([Event.loadUrl, Event.waitForLoad], some e)
    | Except.ok _successfully_loaded =>
      match b.stop with
      | some e =>
        if e.isChromeInterfaceOrTimeout then
          ([Event.loadUrl, Event.waitForLoad, Event.stop,
            Event.poolRemove ("failed to stop")], some e)
        else
          ([Event.loadUrl, Event.waitForLoad, Event.stop], some e)
      | none => ([Event.loadUrl, Event.waitForLoad, Event.stop], none)

/-- `ChromeCrawler._cleanup` (main.py lines 322-352): `load_about_blank`, whose
except-clause removes the chrome from the pool and re-raises on interface
errors and timeouts; other exceptions propagate without a remove. -/
def _cleanup (b : ChromeBehavior) : List Event × Option Exn :=
  match b.load_about_blank with
  | some e =>
    if e.isChromeInterfaceOrTimeout then
      ([Event.loadAboutBlank, Event.poolRemove ("failed to load about:blank")], some e)
    else
      ([Event.loadAboutBlank], some e)
  | none => ([Event.loadAboutBlank], none)

/-- `ChromeCrawler._crawl_with_strategy_and_chrome` (main.py lines 235-320):
initial page load (interface errors and timeouts are soft: logged, session
skipped; anything else re-raised), then `crawl_strategy.crawl` (interface
errors, timeouts and `ChromeCrawlerException` are soft: logged, session
skipped; anything else removes the chrome and re-raises), then `_cleanup`
(interface errors and timeouts soft; anything else re-raised). -/
def _crawl_with_strategy_and_chrome (strategy_crawl : Option Exn) (b : ChromeBehavior) :
    List Event × Option Exn :=
  let ipl := _initial_page_load b
  match ipl.2 with
  | some e =>
    if e.isChromeInterfaceOrTimeout then (ipl.1, none)
    else (ipl.1, some e)
  | none =>
    match strategy_crawl with
    | some e =>
      if e.isSoftStrategyExn then (ipl.1 ++ [Event.strategyCrawl], none)
      else (ipl.1 ++ [Event.strategyCrawl, Event.poolRemove ("failed to crawl")], some e)
    | none =>
      let cl := _cleanup b
      match cl.2 with
      | some e =>
        if e.isChromeInterfaceOrTimeout then (ipl.1 ++ (Event.strategyCrawl :: cl.1), none)
        else (ipl.1 ++ (Event.strategyCrawl :: cl.1), some e)
      | none => (ipl.1 ++ (Event.strategyCrawl :: cl.1), none)

/-- `ChromeCrawler._get_chrome_from_pool` (main.py lines 354-371): a
`ChromePoolException` from `self._chrome_pool.get(...)` is wrapped into a
fresh `ChromeCrawlerException` and raised; other exceptions propagate as-is;
on success the acquired handle is returned. -/
def _get_chrome_from_pool (g : Option Exn) : List Event × Option Exn :=
  match g with
  | none => ([Event.poolGet], none)
  | some Exn.chromePool => ([], some Exn.chromeCrawler)
  | some e => ([], some e)

/-- `ChromeCrawler._crawl_with_strategy` (main.py lines 213-233): acquire a
chrome handle, run `_crawl_with_strategy_and_chrome`; if it raises, remove the
handle with reason `generic exception` and re-raise, otherwise free it. -/
def _crawl_with_strategy (env : SessionEnv) : List Event × Option Exn :=
  let gp := _get_chrome_from_pool env.pool_get
  match gp.2 with
  | some e => (gp.1, some e)
  | none =>
    let s := _crawl_with_strategy_and_chrome env.strategy_crawl env.chrome
    match s.2 with
    | some e => (gp.1 ++ s.1 ++ [Event.poolRemove ("generic exception")], some e)
    | none => (gp.1 ++ s.1 ++ [Event.poolFree], none)

/-- Items the crawler itself puts on the caller-supplied HTTP traffic queue:
the error tuple `(fuzzable_request, e, debugging_id)` built in
`_crawl_with_strategy_wrapper` (the request is identified by its URI). -/
inductive QueueItem
  | errorRecord (request_uri : String) (error : Exn) (debugging_id : String)
deriving DecidableEq

/-- Result of `_crawl_with_strategy_wrapper`: the session's event trace, the
items put on the traffic queue, and the wrapper's boolean return value. -/
structure WrapperResult where
  trace : List Event
  queue : List QueueItem
  returned : Bool
deriving DecidableEq

/-- `ChromeCrawler._crawl_with_strategy_wrapper` (main.py lines 186-211): runs
`_crawl_with_strategy`; every exception is caught, turned into the tuple
`(fuzzable_request, e, debugging_id)` on the HTTP traffic queue, and `False`
is returned; on success `True` is returned.  Nothing is re-raised. -/
def _crawl_with_strategy_wrapper (env : SessionEnv) (request_uri debugging_id : String) :
    WrapperResult :=
  let s := _crawl_with_strategy env
  match s.2 with
  | some e =>
    { trace := s.1
      queue := [QueueItem.errorRecord request_uri e debugging_id]
      returned := false }
  | none => { trace := s.1, queue := [], returned := true }

/-- `ChromeCrawler._crawl` (main.py lines 177-184): the synchronous path runs
`_crawl_with_strategy_wrapper` for every crawl strategy, on the calling
thread; the environments list holds one entry per strategy instance. -/
def _crawl : List SessionEnv → String → String → List Event × List QueueItem
  | [], _, _ => ([], [])
  | env :: rest, request_uri, debugging_id =>
    let w := _crawl_with_strategy_wrapper env request_uri debugging_id
    let r := _crawl rest request_uri debugging_id
    (w.trace ++ r.1, w.queue ++ r.2)

/-- Behaviour of the worker `Pool` during shutdown: whether `close()`,
`join()` and `terminate()` raise, and the value of
`get_running_task_count()`. -/
structure WorkerPoolBehavior where
  close_exn : Option Exn
  join_exn : Option Exn
  terminate_exn : Option Exn
  running_task_count : Nat
deriving DecidableEq

/-- Behaviour of the `ChromePool` during shutdown: whether `terminate()`
raises. -/
structure ChromePoolBehavior where
  terminate_exn : Option Exn
deriving DecidableEq

/-- The mutable attributes of a `ChromeCrawler` instance that the embedded
methods read and write: `_worker_pool` and `_chrome_pool` (both nullable —
`None` models the attribute having been cleared), the `_crawled_with_chrome`
seen-URI set (modelled as a list of URI strings), and presence flags for
`_crawler_state` and `_uri_opener`. -/
structure CrawlerObj where
  worker_pool : Option WorkerPoolBehavior
  chrome_pool : Option ChromePoolBehavior
  crawled_with_chrome : List String
  crawler_state : Bool
  uri_opener : Bool
deriving DecidableEq

/-- Whether `needle` is an initial segment of `hay`. -/
def leadingSegment : List Char → List Char → Bool
  | [], _ => true
  | _ :: _, [] => false
  | a :: as, b :: bs => (a == b) && leadingSegment as bs

/-- Whether `needle` occurs contiguously inside `hay` — Python's
`needle in hay` on strings, over the character lists. -/
def containsChars (needle : List Char) : List Char → Bool
  | [] => leadingSegment needle []
  | c :: rest => leadingSegment needle (c :: rest) || containsChars needle rest

/-- The content-type test of `_should_crawl_with_chrome`:
`'html' in http_response.content_type.lower()` — lowercasing applied
character by character. -/
def hasHtml (content_type : String) : Bool :=
  containsChars ("html").toList (content_type.toList.map Char.toLower)

/-- `ChromeCrawler._should_crawl_with_chrome` (main.py lines 131-151): reject
non-GET methods, content types without `html`, and already-seen response URIs;
otherwise add the URI to `_crawled_with_chrome` and accept. -/
def _should_crawl_with_chrome (st : CrawlerObj) (method content_type response_uri : String) :
    Bool × CrawlerObj :=
  if method ≠ ("GET") then (false, st)
  else if ¬ hasHtml content_type then (false, st)
  else if response_uri ∈ st.crawled_with_chrome then (false, st)
  else (true, { st with crawled_with_chrome := response_uri :: st.crawled_with_chrome })

/-- Result of one `crawl()` call: the boolean return value, the updated
object state, the debugging id in effect for the dispatched tasks (`none`
when nothing was dispatched), whether strategy tasks were dispatched, the
queue items produced during the call (synchronous mode), the tasks enqueued
on the worker pool (asynchronous mode: session environment, request URI,
debugging id), and the exception, if any, raised out of `crawl()`. -/
structure CrawlOutcome where
  returned : Bool
  state : CrawlerObj
  used_debugging_id : Option String
  dispatched : Bool
  queue : List QueueItem
  pending : List (SessionEnv × String × String)
  raised : Option Exn
deriving DecidableEq

/-- `ChromeCrawler.crawl` (main.py lines 89-125): return `False` when
`_worker_pool is None`; gate through `_should_crawl_with_chrome`; pick the
caller's debugging id unless it is absent or empty (Python's
`debugging_id or rand_alnum(8)`), in which case the fresh random id is used;
then run every strategy through the wrapper either inline (`_crawl`) or by
enqueueing worker-pool tasks (`_crawl_async`), and return `True`. -/
def crawl (st : CrawlerObj) (method content_type request_uri response_uri : String)
    (debugging_id : Option String) (fresh_id : String) (is_async : Bool)
    (envs : List SessionEnv) : CrawlOutcome :=
  match st.worker_pool with
  | none =>
    { returned := false, state := st, used_debugging_id := none, dispatched := false,
      queue := [], pending := [], raised := none }
  | some _ =>
    let g := _should_crawl_with_chrome st method content_type response_uri
    if g.1 then
      let d := match debugging_id with
        | none => fresh_id
        | some s => if s.isEmpty then fresh_id else s
      if is_async then
        { returned := true, state := g.2, used_debugging_id := some d, dispatched := true,
          queue := [], pending := envs.map (fun env => (env, request_uri, d)),
          raised := none }
      else
        let r := _crawl envs request_uri d
        { returned := true, state := g.2, used_debugging_id := some d, dispatched := true,
          queue := r.2, pending := [], raised := none }
    else
      { returned := false, state := g.2, used_debugging_id := none, dispatched := false,
        queue := [], pending := [], raised := none }

/-- Running one task that `_crawl_async` enqueued on the worker pool: the
worker executes `_crawl_with_strategy_wrapper` with the stored arguments. -/
def run_pending_task (t : SessionEnv × String × String) : WrapperResult :=
  _crawl_with_strategy_wrapper t.1 t.2.1 t.2.2

/-- `ChromeCrawler.get_pending_tasks` (main.py lines 156-157): calls
`self._worker_pool.get_running_task_count()`; when `_worker_pool` is `None`
this attribute access raises `AttributeError`. -/
def get_pending_tasks (st : CrawlerObj) : Except Exn Nat :=
  match st.worker_pool with
  | none => Except.error Exn.attributeError
  | some wp => Except.ok wp.running_task_count

/-- `ChromeCrawler.has_pending_work` (main.py lines 153-154):
`bool(self.get_pending_tasks())`; an exception from `get_pending_tasks`
propagates. -/
def has_pending_work (st : CrawlerObj) : Except Exn Bool :=
  (get_pending_tasks st).map (fun n => !(n == 0))

/-- Steps performed while shutting down, with a flag recording whether the
step's own call raised (and was caught and logged). -/
inductive ShutdownAction
  | workerClose (failed : Bool)
  | workerJoin (failed : Bool)
  | workerForcedTerminate (failed : Bool)
  | chromePoolTerminate
deriving DecidableEq

/-- `ChromeCrawler._terminate_worker_pool` (main.py lines 469-510): return
immediately when `_worker_pool is None`; otherwise clear the attribute first,
then `close()` (exceptions caught and logged), then `join()` (exceptions
caught and logged, falling back to `terminate()` whose exceptions are also
caught and logged).  Never raises. -/
def _terminate_worker_pool (st : CrawlerObj) : CrawlerObj × List ShutdownAction × Option Exn :=
  match st.worker_pool with
  | none => (st, [], none)
  | some pool =>
    let st1 := { st with worker_pool := none }
    let closeAct := ShutdownAction.workerClose pool.close_exn.isSome
    let joinActs :=
      match pool.join_exn with
      | none => [ShutdownAction.workerJoin false]
      | some _ =>
        [ShutdownAction.workerJoin true,
         ShutdownAction.workerForcedTerminate pool.terminate_exn.isSome]
    (st1, closeAct :: joinActs, none)

/-- `ChromeCrawler.terminate` (main.py lines 457-467): run
`_terminate_worker_pool`, then `self._chrome_pool.terminate()` — with no
try/except: when `_chrome_pool` is `None` the attribute access raises
`AttributeError`, and an exception from the chrome pool's own terminate
propagates — then clear `_chrome_pool`, `_crawler_state` and
`_uri_opener`. -/
def terminate (st : CrawlerObj) : CrawlerObj × List ShutdownAction × Option Exn :=
  let w := _terminate_worker_pool st
  match w.1.chrome_pool with
  | none => (w.1, w.2.1, some Exn.attributeError)
  | some cp =>
    match cp.terminate_exn with
    | some e => (w.1, w.2.1 ++ [ShutdownAction.chromePoolTerminate], some e)
    | none =>
      ({ w.1 with chrome_pool := none, crawler_state := false, uri_opener := false },
       w.2.1 ++ [ShutdownAction.chromePoolTerminate], none)

/-- The worker-pool sizing computed by `ChromeCrawler.__init__` (main.py
lines 57-87): the `max_instances` the `ChromePool` is created with, the
worker thread count, the bounded inbound queue size, and the per-worker
task recycling bound. -/
structure InitSizing where
  chrome_pool_max_instances : Nat
  max_worker_threads : Nat
  worker_inqueue_max_size : Nat
  maxtasksperchild : Nat
deriving DecidableEq

/-- `ChromeCrawler.WORKER_MAX_TASKS` (main.py line 53). -/
def WORKER_MAX_TASKS : Nat := 5

/-- `ChromeCrawler.MIN_WORKER_THREADS` (main.py line 54). -/
def MIN_WORKER_THREADS : Nat := 1

/-- `ChromeCrawler.__init__` sizing (main.py lines 57-83):
`max_instances = max(max_instances, MIN_CHROME_POOL_INSTANCES)` — with the
Python-2 convention that `None` compares below every integer, so a `None`
argument yields the minimum — then
`max_worker_threads = max(max_instances - 1, MIN_WORKER_THREADS)` and
`worker_inqueue_max_size = max_worker_threads * 2`.
`MIN_CHROME_POOL_INSTANCES` is `BaseConsumer.THREAD_POOL_SIZE`, a constant of
a collaborating module, kept here as the parameter
`min_chrome_pool_instances`. -/
def chromeCrawlerInit (max_instances : Option Nat) (min_chrome_pool_instances : Nat) :
    InitSizing :=
  let mi := match max_instances with
    | none => min_chrome_pool_instances
    | some v => max v min_chrome_pool_instances
  let mwt := max (mi - 1) MIN_WORKER_THREADS
  { chrome_pool_max_instances := mi
    max_worker_threads := mwt
    worker_inqueue_max_size := mwt * 2
    maxtasksperchild := WORKER_MAX_TASKS }

/-- The phase of a session in which its first failure, if soft, occurred:
the initial page load (`load_url`, `wait_for_load`, `stop`), the strategy
run, or the cleanup. -/
inductive Phase
  | load
  | strategy
  | cleanup
deriving DecidableEq

/-- `some ph` when the first failing call of the session fails with an
exception the code classifies as soft for that phase (interface error or
timeout during load and cleanup, additionally `ChromeCrawlerException`
during the strategy run); `none` when the session has no failure or its
first failure is hard. -/
def softFailPhase (env : SessionEnv) : Option Phase :=
  match env.chrome.load_url with
  | some e => if e.isChromeInterfaceOrTimeout then some Phase.load else none
  | none =>
    match env.chrome.wait_for_load with
    | Except.error e => if e.isChromeInterfaceOrTimeout then some Phase.load else none
    | Except.ok _ =>
      match env.chrome.stop with
      | some e => if e.isChromeInterfaceOrTimeout then some Phase.load else none
      | none =>
        match env.strategy_crawl with
        | some e => if e.isSoftStrategyExn then some Phase.strategy else none
        | none =>
          match env.chrome.load_about_blank with
          | some e => if e.isChromeInterfaceOrTimeout then some Phase.cleanup else none
          | none => none

/-- Whether the whole initial page load returns normally. -/
def loadPhaseOk (b : ChromeBehavior) : Bool :=
  match b.load_url, b.wait_for_load, b.stop with
  | none, Except.ok _, none => true
  | _, _, _ => false

/-- Whether the strategy run is reached and raises an exception outside the
soft triple (a hard strategy failure). -/
def hardStrategyFail (env : SessionEnv) : Bool :=
  loadPhaseOk env.chrome &&
    (match env.strategy_crawl with
     | some e => !(e.isSoftStrategyExn)
     | none => false)

/-- The sessions in which the source releases the leased handle twice: a soft
failure during load or cleanup (remove inside the failing helper, then free by
the outer session), and a hard strategy failure (remove at the strategy
except-clause, then a second remove by the outer session). -/
def doubleReleaseSession (env : SessionEnv) : Bool :=
  match softFailPhase env with
  | some Phase.load => true
  | some Phase.cleanup => true
  | _ => hardStrategyFail env

/-- A crawler whose pools are present and healthy, with nothing crawled yet. -/
def sampleCrawler : CrawlerObj :=
  { worker_pool := some { close_exn := none, join_exn := none, terminate_exn := none,
                          running_task_count := 0 }
    chrome_pool := some { terminate_exn := none }
    crawled_with_chrome := []
    crawler_state := true
    uri_opener := true }

/-- A crawler after shutdown: every owned reference cleared. -/
def terminatedCrawler : CrawlerObj :=
  { worker_pool := none, chrome_pool := none, crawled_with_chrome := [],
    crawler_state := false, uri_opener := false }

/-- A session whose every call succeeds. -/
def successEnv : SessionEnv :=
  { pool_get := none
    chrome := { load_url := none, wait_for_load := Except.ok true, stop := none,
                load_about_blank := none }
    strategy_crawl := none }

/-- A session whose `load_url` raises a `ChromeInterfaceTimeout`. -/
def softLoadFailEnv : SessionEnv :=
  { pool_get := none
    chrome := { load_url := some Exn.chromeTimeout, wait_for_load := Except.ok true,
                stop := none, load_about_blank := none }
    strategy_crawl := none }

/-- A session whose strategy raises an unanticipated exception. -/
def hardStrategyEnv : SessionEnv :=
  { pool_get := none
    chrome := { load_url := none, wait_for_load := Except.ok true, stop := none,
                load_about_blank := none }
    strategy_crawl := some Exn.other }

/-- A session for which the pool acquisition raises `ChromePoolException`. -/
def poolFailEnv : SessionEnv :=
  { pool_get := some Exn.chromePool
    chrome := { load_url := none, wait_for_load := Except.ok true, stop := none,
                load_about_blank := none }
    strategy_crawl := none }

/-- A session whose `wait_for_load` returns `False` without raising. -/
def waitFalseEnv : SessionEnv :=
  { pool_get := none
    chrome := { load_url := none, wait_for_load := Except.ok false, stop := none,
                load_about_blank := none }
    strategy_crawl := none }

/-- `crawl()` never raises: every branch of the embedded `crawl` (terminated,
gate-rejected, synchronous dispatch, asynchronous dispatch) returns with no
propagated exception, because both dispatch paths run the sessions through
`_crawl_with_strategy_wrapper`, which catches everything. -/
theorem crawl_raised_none (st : CrawlerObj)
    (method content_type request_uri response_uri fresh_id : String)
    (debugging_id : Option String) (is_async : Bool) (envs : List SessionEnv) :
    (crawl st method content_type request_uri response_uri debugging_id fresh_id
        is_async envs).raised = none := by
  unfold crawl
  cases hpool : st.worker_pool with
  | none => rfl
  | some wp =>
    simp only
    split
    · cases is_async <;> rfl
    · rfl

/-- Every session whose run raises an exception contributes the matching
error tuple to the traffic queue of the synchronous `_crawl` loop. -/
theorem errorRecord_mem_crawl (envs : List SessionEnv) (env : SessionEnv) (e : Exn)
    (request_uri debugging_id : String)
    (h1 : (_crawl_with_strategy env).2 = some e) (h2 : env ∈ envs) :
    QueueItem.errorRecord request_uri e debugging_id ∈
      (_crawl envs request_uri debugging_id).2 := by
  induction envs with
  | nil => cases h2
  | cons hd tl ih =>
    cases h2 with
    | head =>
      simp [_crawl, _crawl_with_strategy_wrapper, h1]
    | tail _ hmem =>
      simp only [_crawl, List.mem_append]
      exact Or.inr (ih hmem)

/-- C5: the worker pool is sized from the crawler's max-renderer-instances
capacity: worker thread count = max(capacity - 1, 1) and inbound task queue
capacity = 2 x worker count, for every constructor argument (including the
`None` default) and every value of the external pool minimum. -/
theorem C5_worker_pool_sizing (max_instances : Option Nat) (min_chrome_pool_instances : Nat) :
    (chromeCrawlerInit max_instances min_chrome_pool_instances).max_worker_threads =
      max ((chromeCrawlerInit max_instances
              min_chrome_pool_instances).chrome_pool_max_instances - 1) 1 ∧
    (chromeCrawlerInit max_instances min_chrome_pool_instances).worker_inqueue_max_size =
      2 * (chromeCrawlerInit max_instances min_chrome_pool_instances).max_worker_threads := by
  cases max_instances <;>
    simp [chromeCrawlerInit, MIN_WORKER_THREADS, Nat.mul_comm]

/-- C7: once the orchestrator is terminated (`_worker_pool is None`), any
`crawl()` call returns `False` with no side effects at all: the state is
unchanged, no URI is marked seen, no debugging id is picked, nothing is
dispatched, and nothing is queued. -/
theorem C7_terminated_crawl_noop (st : CrawlerObj)
    (method content_type request_uri response_uri fresh_id : String)
    (debugging_id : Option String) (is_async : Bool) (envs : List SessionEnv)
    (h : st.worker_pool = none) :
    crawl st method content_type request_uri response_uri debugging_id fresh_id
        is_async envs =
      { returned := false, state := st, used_debugging_id := none, dispatched := false,
        queue := [], pending := [], raised := none } := by
  simp [crawl, h]

/-- C7 witness: a concrete terminated crawler rejects a fully eligible
request without side effects. -/
theorem C7_terminated_crawl_noop_witness :
    terminatedCrawler.worker_pool = none ∧
    crawl terminatedCrawler ("GET") ("text/html") ("http://w3af.org/a")
        ("http://w3af.org/a") none ("fresh123") false [successEnv] =
      { returned := false, state := terminatedCrawler, used_debugging_id := none,
        dispatched := false, queue := [], pending := [], raised := none } :=
  ⟨rfl, C7_terminated_crawl_noop terminatedCrawler ("GET") ("text/html")
      ("http://w3af.org/a") ("http://w3af.org/a") ("fresh123") none false [successEnv] rfl⟩

/-- C8: when the pool acquisition raises `ChromePoolException`, the session
raises a `ChromeCrawlerException` wrapping it to whatever dispatched the
session, and no phase runs: the trace is empty — no chrome call, no free, no
remove. -/
theorem C8_pool_error_wrapped (env : SessionEnv)
    (h : env.pool_get = some Exn.chromePool) :
    _crawl_with_strategy env = ([], some Exn.chromeCrawler) := by
  simp [_crawl_with_strategy, _get_chrome_from_pool, h]

/-- C8 witness: a concrete pool-exhausted session. -/
theorem C8_pool_error_wrapped_witness :
    poolFailEnv.pool_get = some Exn.chromePool ∧
    _crawl_with_strategy poolFailEnv = ([], some Exn.chromeCrawler) :=
  ⟨rfl, C8_pool_error_wrapped poolFailEnv rfl⟩

/-- C10: after `terminate()`, both introspection methods raise
(`AttributeError` from calling a method on the cleared `_worker_pool`)
rather than returning false/zero — for every starting state, whether or not
the chrome-pool step of `terminate()` itself succeeded. -/
theorem C10_introspection_after_terminate (st : CrawlerObj) :
    get_pending_tasks (terminate st).1 = Except.error Exn.attributeError ∧
    has_pending_work (terminate st).1 = Except.error Exn.attributeError := by
  rcases st with ⟨wpo, cpo, cr, cs, uo⟩
  rcases wpo with _ | wp <;> rcases cpo with _ | ⟨_ | te⟩ <;>
    simp [terminate, _terminate_worker_pool, get_pending_tasks, has_pending_work,
          Except.map]

/-- C1 counterexample: in a session whose `load_url` raises a
`ChromeInterfaceTimeout` (a soft load failure), the acquired handle is first
removed inside `_initial_page_load` and then — because
`_crawl_with_strategy_and_chrome` swallows the soft exception and returns
normally — also freed by `_crawl_with_strategy`'s success branch: one
acquire, but one free plus one remove.  This refutes acquire = free + remove
and refutes that no handle is both evicted and freed. -/
theorem C1_soft_load_double_release_counterexample :
    countFree (_crawl_with_strategy softLoadFailEnv).1 +
        countRemove (_crawl_with_strategy softLoadFailEnv).1 ≠
      countAcquire (_crawl_with_strategy softLoadFailEnv).1 ∧
    countAcquire (_crawl_with_strategy softLoadFailEnv).1 = 1 ∧
    countFree (_crawl_with_strategy softLoadFailEnv).1 = 1 ∧
    countRemove (_crawl_with_strategy softLoadFailEnv).1 = 1 := by
  decide

/-- C1 (amended): every acquired handle is released at least once on every
exit path, and the exact accounting is: free + remove calls = acquire calls,
except that a soft failure during the initial page load or during cleanup
yields one remove and one free of the same handle, and a hard failure during
the strategy run yields two removes — in those sessions the releases exceed
the single acquire by one. -/
theorem C1_handle_accounting_amended (env : SessionEnv) (h : env.pool_get = none) :
    countAcquire (_crawl_with_strategy env).1 = 1 ∧
    countFree (_crawl_with_strategy env).1 + countRemove (_crawl_with_strategy env).1 =
      (if doubleReleaseSession env = true then 2 else 1) := by
  rcases env with ⟨pg, ⟨lu, wl, sp, ab⟩, sc⟩
  obtain rfl : pg = none := h
  cases lu with
  | some e =>
    cases e <;>
      simp [_crawl_with_strategy, _get_chrome_from_pool, _crawl_with_strategy_and_chrome,
            _initial_page_load, _cleanup, countAcquire, countFree, countRemove,
            doubleReleaseSession, softFailPhase, hardStrategyFail, loadPhaseOk,
            Exn.isChromeInterfaceOrTimeout, Exn.isSoftStrategyExn]
  | none =>
    cases wl with
    | error e =>
      cases e <;>
        simp [_crawl_with_strategy, _get_chrome_from_pool, _crawl_with_strategy_and_chrome,
              _initial_page_load, _cleanup, countAcquire, countFree, countRemove,
              doubleReleaseSession, softFailPhase, hardStrategyFail, loadPhaseOk,
              Exn.isChromeInterfaceOrTimeout, Exn.isSoftStrategyExn]
    | ok b =>
      cases sp with
      | some e =>
        cases e <;>
          simp [_crawl_with_strategy, _get_chrome_from_pool, _crawl_with_strategy_and_chrome,
                _initial_page_load, _cleanup, countAcquire, countFree, countRemove,
                doubleReleaseSession, softFailPhase, hardStrategyFail, loadPhaseOk,
                Exn.isChromeInterfaceOrTimeout, Exn.isSoftStrategyExn]
      | none =>
        cases sc with
        | some e =>
          cases e <;>
            simp [_crawl_with_strategy, _get_chrome_from_pool,
                  _crawl_with_strategy_and_chrome, _initial_page_load, _cleanup,
                  countAcquire, countFree, countRemove, doubleReleaseSession,
                  softFailPhase, hardStrategyFail, loadPhaseOk,
                  Exn.isChromeInterfaceOrTimeout, Exn.isSoftStrategyExn]
        | none =>
          cases ab with
          | some e =>
            cases e <;>
              simp [_crawl_with_strategy, _get_chrome_from_pool,
                    _crawl_with_strategy_and_chrome, _initial_page_load, _cleanup,
                    countAcquire, countFree, countRemove, doubleReleaseSession,
                    softFailPhase, hardStrategyFail, loadPhaseOk,
                    Exn.isChromeInterfaceOrTimeout, Exn.isSoftStrategyExn]
          | none =>
            simp [_crawl_with_strategy, _get_chrome_from_pool,
                  _crawl_with_strategy_and_chrome, _initial_page_load, _cleanup,
                  countAcquire, countFree, countRemove, doubleReleaseSession,
                  softFailPhase, hardStrategyFail, loadPhaseOk,
                  Exn.isChromeInterfaceOrTimeout, Exn.isSoftStrategyExn]

/-- C1 amended witness: a fully successful session acquires once and
releases exactly once. -/
theorem C1_handle_accounting_amended_witness :
    successEnv.pool_get = none ∧
    (countAcquire (_crawl_with_strategy successEnv).1 = 1 ∧
     countFree (_crawl_with_strategy successEnv).1 +
         countRemove (_crawl_with_strategy successEnv).1 =
       (if doubleReleaseSession successEnv = true then 2 else 1)) :=
  ⟨rfl, C1_handle_accounting_amended successEnv rfl⟩

/-- C2 counterexample: starting from a healthy crawler, the first
`terminate()` completes without raising, but the second `terminate()` raises
an `AttributeError`: `_terminate_worker_pool` returns early (its pool is
already `None`), and then `self._chrome_pool.terminate()` dereferences the
`None` left by the first call.  `terminate()` is therefore not idempotent. -/
theorem C2_second_terminate_raises_counterexample :
    (terminate sampleCrawler).2.2 = none ∧
    (terminate (terminate sampleCrawler).1).2.2 = some Exn.attributeError := by
  decide

/-- C2 (amended): the first `terminate()` on a live crawler never raises —
failures of the worker pool's `close()` and `join()` are caught, with a
caught fallback to the pool's own `terminate()` — and it clears both pool
references; a second `terminate()` performs no shutdown work but raises an
`AttributeError` because `self._chrome_pool` is `None`, so `terminate()` is
not idempotent past its worker-pool half. -/
theorem C2_terminate_amended (st : CrawlerObj) (wp : WorkerPoolBehavior)
    (cp : ChromePoolBehavior)
    (h1 : st.worker_pool = some wp) (h2 : st.chrome_pool = some cp)
    (h3 : cp.terminate_exn = none) :
    (terminate st).2.2 = none ∧
    (terminate st).1.worker_pool = none ∧
    (terminate st).1.chrome_pool = none ∧
    (terminate (terminate st).1).2.1 = [] ∧
    (terminate (terminate st).1).2.2 = some Exn.attributeError := by
  rcases st with ⟨wpo, cpo, cr, cs, uo⟩
  obtain rfl : wpo = some wp := h1
  obtain rfl : cpo = some cp := h2
  rcases wp with ⟨ce, je, te, rc⟩
  rcases cp with ⟨cpt⟩
  obtain rfl : cpt = none := h3
  cases je <;> simp [terminate, _terminate_worker_pool]

/-- C2 amended witness: the concrete healthy crawler. -/
theorem C2_terminate_amended_witness :
    sampleCrawler.worker_pool =
        some { close_exn := none, join_exn := none, terminate_exn := none,
               running_task_count := 0 } ∧
    sampleCrawler.chrome_pool = some { terminate_exn := none } ∧
    ((terminate sampleCrawler).2.2 = none ∧
     (terminate sampleCrawler).1.worker_pool = none ∧
     (terminate sampleCrawler).1.chrome_pool = none ∧
     (terminate (terminate sampleCrawler).1).2.1 = [] ∧
     (terminate (terminate sampleCrawler).1).2.2 = some Exn.attributeError) :=
  ⟨rfl, rfl,
   C2_terminate_amended sampleCrawler
     { close_exn := none, join_exn := none, terminate_exn := none,
       running_task_count := 0 }
     { terminate_exn := none } rfl rfl rfl⟩

/-- C3 counterexample: a synchronous `crawl()` whose (only) session fails
hard does NOT re-raise the failure to the caller: `crawl()` returns `True`
with no exception, and the failure instead appears as the
`(request, error, debuggingId)` tuple on the traffic queue — the synchronous
path runs the same catching wrapper as the asynchronous one. -/
theorem C3_sync_hard_failure_not_raised_counterexample :
    (_crawl_with_strategy hardStrategyEnv).2 = some Exn.other ∧
    (crawl sampleCrawler ("GET") ("text/html") ("http://w3af.org/a")
        ("http://w3af.org/a") (some ("did1")) ("fresh123") false
        [hardStrategyEnv]).raised = none ∧
    (crawl sampleCrawler ("GET") ("text/html") ("http://w3af.org/a")
        ("http://w3af.org/a") (some ("did1")) ("fresh123") false
        [hardStrategyEnv]).returned = true ∧
    (crawl sampleCrawler ("GET") ("text/html") ("http://w3af.org/a")
        ("http://w3af.org/a") (some ("did1")) ("fresh123") false
        [hardStrategyEnv]).queue =
      [QueueItem.errorRecord ("http://w3af.org/a") Exn.other ("did1")] := by
  decide

/-- C3 (amended): `crawl()` never raises in either mode; a hard session
failure surfaces as an `(originalRequest, error, debuggingId)` record on the
traffic sink in both modes — during the call for a synchronous dispatch, and
when the queued task later runs for an asynchronous dispatch. -/
theorem C3_failures_to_sink_amended (st : CrawlerObj)
    (method content_type request_uri response_uri fresh_id debugging_id : String)
    (did : Option String) (is_async : Bool)
    (envs : List SessionEnv) (env : SessionEnv) (e : Exn)
    (h1 : (_crawl_with_strategy env).2 = some e) (h2 : env ∈ envs) :
    (crawl st method content_type request_uri response_uri did fresh_id
        is_async envs).raised = none ∧
    _crawl_with_strategy_wrapper env request_uri debugging_id =
      { trace := (_crawl_with_strategy env).1
        queue := [QueueItem.errorRecord request_uri e debugging_id]
        returned := false } ∧
    QueueItem.errorRecord request_uri e debugging_id ∈
      (_crawl envs request_uri debugging_id).2 ∧
    run_pending_task (env, request_uri, debugging_id) =
      { trace := (_crawl_with_strategy env).1
        queue := [QueueItem.errorRecord request_uri e debugging_id]
        returned := false } := by
  refine ⟨crawl_raised_none st method content_type request_uri response_uri fresh_id
      did is_async envs, ?_, ?_, ?_⟩
  · simp [_crawl_with_strategy_wrapper, h1]
  · exact errorRecord_mem_crawl envs env e request_uri debugging_id h1 h2
  · simp [run_pending_task, _crawl_with_strategy_wrapper, h1]

/-- C3 amended witness: the hard-failing session dispatched synchronously
from the concrete healthy crawler. -/
theorem C3_failures_to_sink_amended_witness :
    (_crawl_with_strategy hardStrategyEnv).2 = some Exn.other ∧
    hardStrategyEnv ∈ [hardStrategyEnv] ∧
    ((crawl sampleCrawler ("GET") ("text/html") ("http://w3af.org/a")
        ("http://w3af.org/a") (some ("did1")) ("fresh123") false
        [hardStrategyEnv]).raised = none ∧
     _crawl_with_strategy_wrapper hardStrategyEnv ("http://w3af.org/a") ("did1") =
       { trace := (_crawl_with_strategy hardStrategyEnv).1
         queue := [QueueItem.errorRecord ("http://w3af.org/a") Exn.other ("did1")]
         returned := false } ∧
     QueueItem.errorRecord ("http://w3af.org/a") Exn.other ("did1") ∈
       (_crawl [hardStrategyEnv] ("http://w3af.org/a") ("did1")).2 ∧
     run_pending_task (hardStrategyEnv, ("http://w3af.org/a"), ("did1")) =
       { trace := (_crawl_with_strategy hardStrategyEnv).1
         queue := [QueueItem.errorRecord ("http://w3af.org/a") Exn.other ("did1")]
         returned := false }) :=
  ⟨rfl, List.Mem.head _,
   C3_failures_to_sink_amended sampleCrawler ("GET") ("text/html")
     ("http://w3af.org/a") ("http://w3af.org/a") ("fresh123") ("did1")
     (some ("did1")) false [hardStrategyEnv] hardStrategyEnv Exn.other
     rfl (List.Mem.head _)⟩

/-- C4: the eligibility gate of `crawl()`: work is dispatched (and `True`
returned) iff the method is GET, the content type contains `html` after
lowercasing, and the response URI has not been seen; a rejected call returns
`False` and leaves the state untouched; an accepted call records the URI in
the seen set, so repeating the same call returns `False`. -/
theorem C4_eligibility_gate (st : CrawlerObj) (wp : WorkerPoolBehavior)
    (method content_type request_uri response_uri fresh_id : String)
    (debugging_id : Option String) (is_async : Bool) (envs : List SessionEnv)
    (h : st.worker_pool = some wp) :
    (((crawl st method content_type request_uri response_uri debugging_id fresh_id
          is_async envs).dispatched = true ∧
      (crawl st method content_type request_uri response_uri debugging_id fresh_id
          is_async envs).returned = true) ↔
      (method = ("GET") ∧ hasHtml content_type = true ∧
        response_uri ∉ st.crawled_with_chrome)) ∧
    (¬ (method = ("GET") ∧ hasHtml content_type = true ∧
          response_uri ∉ st.crawled_with_chrome) →
      (crawl st method content_type request_uri response_uri debugging_id fresh_id
          is_async envs).returned = false ∧
      (crawl st method content_type request_uri response_uri debugging_id fresh_id
          is_async envs).state = st) ∧
    ((method = ("GET") ∧ hasHtml content_type = true ∧
        response_uri ∉ st.crawled_with_chrome) →
      response_uri ∈ (crawl st method content_type request_uri response_uri
          debugging_id fresh_id is_async envs).state.crawled_with_chrome ∧
      (crawl (crawl st method content_type request_uri response_uri debugging_id
            fresh_id is_async envs).state
          method content_type request_uri response_uri debugging_id fresh_id
          is_async envs).returned = false) := by
  rcases st with ⟨wpo, cpo, cr, cs, uo⟩
  obtain rfl : wpo = some wp := h
  by_cases hm : method = ("GET")
  · by_cases hh : hasHtml content_type = true
    · by_cases hu : response_uri ∈ cr
      · cases is_async <;>
          simp [crawl, _should_crawl_with_chrome, hm, hh, hu]
      · cases is_async <;>
          simp [crawl, _should_crawl_with_chrome, hm, hh, hu]
    · cases is_async <;>
        simp [crawl, _should_crawl_with_chrome, hm, hh]
  · cases is_async <;>
      simp [crawl, _should_crawl_with_chrome, hm]

/-- C4 witness: a GET request for an html response with an unseen URI on the
concrete healthy crawler. -/
theorem C4_eligibility_gate_witness :
    sampleCrawler.worker_pool =
        some { close_exn := none, join_exn := none, terminate_exn := none,
               running_task_count := 0 } ∧
    ((((crawl sampleCrawler ("GET") ("text/html") ("http://w3af.org/a")
          ("http://w3af.org/a") none ("fresh123") false [successEnv]).dispatched = true ∧
       (crawl sampleCrawler ("GET") ("text/html") ("http://w3af.org/a")
          ("http://w3af.org/a") none ("fresh123") false [successEnv]).returned = true) ↔
       (("GET") = ("GET") ∧ hasHtml ("text/html") = true ∧
         ("http://w3af.org/a") ∉ sampleCrawler.crawled_with_chrome)) ∧
     (¬ (("GET") = ("GET") ∧ hasHtml ("text/html") = true ∧
           ("http://w3af.org/a") ∉ sampleCrawler.crawled_with_chrome) →
       (crawl sampleCrawler ("GET") ("text/html") ("http://w3af.org/a")
          ("http://w3af.org/a") none ("fresh123") false [successEnv]).returned = false ∧
       (crawl sampleCrawler ("GET") ("text/html") ("http://w3af.org/a")
          ("http://w3af.org/a") none ("fresh123") false [successEnv]).state =
         sampleCrawler) ∧
     ((("GET") = ("GET") ∧ hasHtml ("text/html") = true ∧
         ("http://w3af.org/a") ∉ sampleCrawler.crawled_with_chrome) →
       ("http://w3af.org/a") ∈ (crawl sampleCrawler ("GET") ("text/html")
          ("http://w3af.org/a") ("http://w3af.org/a") none ("fresh123") false
          [successEnv]).state.crawled_with_chrome ∧
       (crawl (crawl sampleCrawler ("GET") ("text/html") ("http://w3af.org/a")
            ("http://w3af.org/a") none ("fresh123") false [successEnv]).state
          ("GET") ("text/html") ("http://w3af.org/a") ("http://w3af.org/a")
          none ("fresh123") false [successEnv]).returned = false)) :=
  ⟨rfl,
   C4_eligibility_gate sampleCrawler
     { close_exn := none, join_exn := none, terminate_exn := none,
       running_task_count := 0 }
     ("GET") ("text/html") ("http://w3af.org/a") ("http://w3af.org/a")
     ("fresh123") none false [successEnv] rfl⟩

/-- C6: a soft error (interface error or timeout; additionally the
strategy-reported `ChromeCrawlerException` during the strategy run) at any
phase never propagates past the session: `_crawl_with_strategy` returns with
no exception, the phases after the failing one are skipped, eviction happens
exactly when the soft error occurred during the initial page load or the
cleanup, and a soft strategy error leaves the renderer freed as healthy. -/
theorem C6_soft_error_policy (env : SessionEnv) (ph : Phase)
    (h1 : env.pool_get = none) (h2 : softFailPhase env = some ph) :
    (_crawl_with_strategy env).2 = none ∧
    (ph = Phase.load →
      hasStrategyCrawl (_crawl_with_strategy env).1 = false ∧
      hasLoadAboutBlank (_crawl_with_strategy env).1 = false) ∧
    (ph = Phase.strategy → hasLoadAboutBlank (_crawl_with_strategy env).1 = false) ∧
    ((1 ≤ countRemove (_crawl_with_strategy env).1) ↔
      (ph = Phase.load ∨ ph = Phase.cleanup)) ∧
    (ph = Phase.strategy →
      countRemove (_crawl_with_strategy env).1 = 0 ∧
      countFree (_crawl_with_strategy env).1 = 1) := by
  rcases env with ⟨pg, ⟨lu, wl, sp, ab⟩, sc⟩
  obtain rfl : pg = none := h1
  cases lu with
  | some e =>
    cases e <;>
      simp_all [_crawl_with_strategy, _get_chrome_from_pool,
                _crawl_with_strategy_and_chrome, _initial_page_load, _cleanup,
                softFailPhase, countFree, countRemove, hasStrategyCrawl,
                hasLoadAboutBlank, Exn.isChromeInterfaceOrTimeout, Exn.isSoftStrategyExn] <;> subst h2 <;> decide
  | none =>
    cases wl with
    | error e =>
      cases e <;>
        simp_all [_crawl_with_strategy, _get_chrome_from_pool,
                  _crawl_with_strategy_and_chrome, _initial_page_load, _cleanup,
                  softFailPhase, countFree, countRemove, hasStrategyCrawl,
                  hasLoadAboutBlank, Exn.isChromeInterfaceOrTimeout,
                  Exn.isSoftStrategyExn] <;> subst h2 <;> decide
    | ok b =>
      cases sp with
      | some e =>
        cases e <;>
          simp_all [_crawl_with_strategy, _get_chrome_from_pool,
                    _crawl_with_strategy_and_chrome, _initial_page_load, _cleanup,
                    softFailPhase, countFree, countRemove, hasStrategyCrawl,
                    hasLoadAboutBlank, Exn.isChromeInterfaceOrTimeout,
                    Exn.isSoftStrategyExn] <;> subst h2 <;> decide
      | none =>
        cases sc with
        | some e =>
          cases e <;>
            simp_all [_crawl_with_strategy, _get_chrome_from_pool,
                      _crawl_with_strategy_and_chrome, _initial_page_load, _cleanup,
                      softFailPhase, countFree, countRemove, hasStrategyCrawl,
                      hasLoadAboutBlank, Exn.isChromeInterfaceOrTimeout,
                      Exn.isSoftStrategyExn] <;> subst h2 <;> decide
        | none =>
          cases ab with
          | some e =>
            cases e <;>
              simp_all [_crawl_with_strategy, _get_chrome_from_pool,
                        _crawl_with_strategy_and_chrome, _initial_page_load, _cleanup,
                        softFailPhase, countFree, countRemove, hasStrategyCrawl,
                        hasLoadAboutBlank, Exn.isChromeInterfaceOrTimeout,
                        Exn.isSoftStrategyExn] <;> subst h2 <;> decide
          | none =>
            simp_all [softFailPhase]

/-- C6 witness: a `ChromeInterfaceTimeout` raised by `load_url`. -/
theorem C6_soft_error_policy_witness :
    softLoadFailEnv.pool_get = none ∧
    softFailPhase softLoadFailEnv = some Phase.load ∧
    ((_crawl_with_strategy softLoadFailEnv).2 = none ∧
     (Phase.load = Phase.load →
       hasStrategyCrawl (_crawl_with_strategy softLoadFailEnv).1 = false ∧
       hasLoadAboutBlank (_crawl_with_strategy softLoadFailEnv).1 = false) ∧
     (Phase.load = Phase.strategy →
       hasLoadAboutBlank (_crawl_with_strategy softLoadFailEnv).1 = false) ∧
     ((1 ≤ countRemove (_crawl_with_strategy softLoadFailEnv).1) ↔
       (Phase.load = Phase.load ∨ Phase.load = Phase.cleanup)) ∧
     (Phase.load = Phase.strategy →
       countRemove (_crawl_with_strategy softLoadFailEnv).1 = 0 ∧
       countFree (_crawl_with_strategy softLoadFailEnv).1 = 1)) :=
  ⟨rfl, rfl, C6_soft_error_policy softLoadFailEnv Phase.load rfl rfl⟩

/-- C9: when `wait_for_load` returns `False` without raising, the initial
page load is not a failure: `chrome.stop()` is still invoked, the load phase
completes normally (when `stop()` itself does not raise), and the extraction
strategy is run against whatever DOM state exists. -/
theorem C9_wait_false_best_effort (env : SessionEnv)
    (h1 : env.pool_get = none) (h2 : env.chrome.load_url = none)
    (h3 : env.chrome.wait_for_load = Except.ok false) :
    hasStop (_crawl_with_strategy env).1 = true ∧
    (env.chrome.stop = none →
      (_initial_page_load env.chrome).2 = none ∧
      hasStrategyCrawl (_crawl_with_strategy env).1 = true) := by
  rcases env with ⟨pg, ⟨lu, wl, sp, ab⟩, sc⟩
  obtain rfl : pg = none := h1
  obtain rfl : lu = none := h2
  obtain rfl : wl = Except.ok false := h3
  cases sp with
  | some e =>
    cases e <;>
      simp [_crawl_with_strategy, _get_chrome_from_pool,
            _crawl_with_strategy_and_chrome, _initial_page_load, _cleanup,
            hasStop, hasStrategyCrawl, Exn.isChromeInterfaceOrTimeout,
            Exn.isSoftStrategyExn]
  | none =>
    cases sc with
    | some e =>
      cases e <;>
        simp [_crawl_with_strategy, _get_chrome_from_pool,
              _crawl_with_strategy_and_chrome, _initial_page_load, _cleanup,
              hasStop, hasStrategyCrawl, Exn.isChromeInterfaceOrTimeout,
              Exn.isSoftStrategyExn]
    | none =>
      cases ab with
      | some e =>
        cases e <;>
          simp [_crawl_with_strategy, _get_chrome_from_pool,
                _crawl_with_strategy_and_chrome, _initial_page_load, _cleanup,
                hasStop, hasStrategyCrawl, Exn.isChromeInterfaceOrTimeout,
                Exn.isSoftStrategyExn]
      | none =>
        simp [_crawl_with_strategy, _get_chrome_from_pool,
              _crawl_with_strategy_and_chrome, _initial_page_load, _cleanup,
              hasStop, hasStrategyCrawl]

/-- C9 witness: a session whose `wait_for_load` returns `False` and whose
other calls succeed. -/
theorem C9_wait_false_best_effort_witness :
    waitFalseEnv.pool_get = none ∧
    waitFalseEnv.chrome.load_url = none ∧
    waitFalseEnv.chrome.wait_for_load = Except.ok false ∧
    (hasStop (_crawl_with_strategy waitFalseEnv).1 = true ∧
     (waitFalseEnv.chrome.stop = none →
       (_initial_page_load waitFalseEnv.chrome).2 = none ∧
       hasStrategyCrawl (_crawl_with_strategy waitFalseEnv).1 = true)) :=
  ⟨rfl, rfl, rfl, C9_wait_false_best_effort waitFalseEnv rfl rfl rfl⟩

end ChromeCrawler
